import Mathlib

/-!
Verification development for the "local mode" slice of a VS Code AI-chat
extension: a LocalLlmEndpoint HTTP adapter that forwards chat requests to a
local OpenAI-compatible server, a LocalEndpointProvider that caches that
endpoint, and the fake/null services (authentication, quota, CAPI, automode)
that stub out the remote backend.

The TypeScript sources are shallowly embedded: classes become structures,
methods become functions, mutation becomes explicit state passing, promises
that can reject become Except, and JS fields that may be undefined become Option.
External collaborators (the SSE stream parser, the fetcher, JSON.parse and
JSON.stringify, the uuid generator) are modelled at their interface: the
parse result of a response body is carried on the Response value, the
completions and callback invocations the external SSEProcessor yields for a
response are carried as oracle fields of the Response, and the uuid
generator is a function parameter. Message content is modelled as plain
text, on which the host helper getTextPart is the identity.
-/

namespace LocalMode

/-- Substring test on character lists: does sub occur contiguously? -/
def strIncludesAux (sub : List Char) : List Char → Bool
  | [] => sub.isPrefixOf ([] : List Char)
  | c :: cs => sub.isPrefixOf (c :: cs) || strIncludesAux sub cs

/-- JavaScript String.prototype.includes: true when sub occurs in s. -/
def strIncludes (s sub : String) : Bool := strIncludesAux sub.data s.data

/-- HTTP headers as an association list; get returns the first entry with
the asked-for name (the source only ever asks for the exact names
"content-type" and "X-Request-ID"). -/
structure Headers where
  entries : List (String × String)
deriving DecidableEq, Repr

def Headers.get (h : Headers) (name : String) : Option String :=
  (h.entries.find? (fun p => p.1 == name)).map Prod.snd

/-- Usage block of an OpenAI chat completion response. -/
structure APIUsage where
  prompt_tokens : Nat
  completion_tokens : Nat
  total_tokens : Nat
deriving DecidableEq, Repr

/-- Request id record as assembled in processNonStreamingResponse and as
carried by the FinishedCompletion of the host. -/
structure RequestId where
  headerRequestId : String
  gitHubRequestId : String
  completionId : Option String
  created : Option Nat
  deploymentId : String
  serverExperiments : String
deriving DecidableEq, Repr

/-- The function part of an OpenAI tool call; both fields may be absent. -/
structure ToolCallFunction where
  name : Option String
  arguments : Option String
deriving DecidableEq, Repr

/-- One tool call of a response choice message. -/
structure JsonToolCall where
  id : Option String
  function : Option ToolCallFunction
deriving DecidableEq, Repr

/-- The message object of one choice of a parsed (non-streaming) JSON
response body; content is modelled as plain text. -/
structure JsonMessage where
  role : String
  content : String
  name : Option String
  toolCalls : Option (List JsonToolCall)
  tool_calls : Option (List JsonToolCall)
deriving DecidableEq, Repr

/-- One choice of a parsed JSON response body. -/
structure JsonChoice where
  message : JsonMessage
  finish_reason : Option String
deriving DecidableEq, Repr

/-- A parsed (JSON.parse) non-streaming chat completion response body. -/
structure JsonResponse where
  id : Option String
  created : Option Nat
  model : Option String
  usage : Option APIUsage
  choices : Option (List JsonChoice)
deriving DecidableEq, Repr

/-- The solution part of a finished SSE completion: the streamed text chunks
and the model name. -/
structure CompletionSolution where
  text : List String
  model : Option String
deriving DecidableEq, Repr

/-- A finished completion as yielded by the external SSEProcessor.processSSE;
the fields are those processResponseFromChatEndpoint reads. -/
structure FinishedCompletion where
  solution : CompletionSolution
  finishOffset : Option Nat
  index : Nat
  reason : Option String
  filterReason : Option String
  usage : Option APIUsage
  requestId : RequestId
  error : Option String
deriving DecidableEq, Repr

/-- Telemetry data is opaque pass-through state; createAndMarkAsIssued marks
it issued. -/
structure TelemetryData where
  issued : Bool
deriving DecidableEq, Repr

def TelemetryData.createAndMarkAsIssued : TelemetryData := { issued := true }

/-- An assistant chat message as placed into a ChatCompletion; the SSE branch
leaves name and toolCalls unset. -/
structure AssistantChatMessage where
  role : String
  content : String
  name : Option String := none
  toolCalls : Option (List JsonToolCall) := none
deriving DecidableEq, Repr

/-- The normalized chat completion representation of the host, as built by both
branches of processResponseFromChatEndpoint. -/
structure ChatCompletion where
  blockFinished : Bool
  choiceIndex : Nat
  model : Option String
  filterReason : Option String
  finishReason : Option String
  message : AssistantChatMessage
  usage : Option APIUsage
  tokens : List String
  requestId : RequestId
  telemetryData : TelemetryData
  error : Option String := none
deriving DecidableEq, Repr

/-- One entry of the copilotToolCalls list handed to the finished callback. -/
structure ICopilotToolCall where
  name : String
  arguments : String
  id : String
deriving DecidableEq, Repr

/-- The delta object passed to the finished callback. -/
structure CallbackDelta where
  text : String
  copilotToolCalls : List ICopilotToolCall
deriving DecidableEq, Repr

/-- One invocation of the finished callback: its three arguments. -/
structure CallbackInvocation where
  text : String
  index : Nat
  delta : CallbackDelta
deriving DecidableEq, Repr

/-- An HTTP response as the endpoint code observes it. body is the JSON.parse
result of the response text (none when the text is not valid JSON);
sseCompletions and sseInvocations are what the external SSEProcessor yields
and calls back for this response when it is consumed as an SSE stream. -/
structure Response where
  ok : Bool
  status : Nat
  statusText : String
  headers : Headers
  body : Option JsonResponse
  sseCompletions : List FinishedCompletion
  sseInvocations : List CallbackInvocation
deriving DecidableEq, Repr

/-- Host helper getTextPart of globalStringUtils: content is modelled as
plain text, on which it is the identity. -/
def getTextPart (content : String) : String := content

/-- Token limits of the model capabilities; every field may be absent. -/
structure ModelLimits where
  max_prompt_tokens : Option Nat
  max_output_tokens : Option Nat
  max_context_window_tokens : Option Nat
deriving DecidableEq, Repr

/-- Feature support flags of the model capabilities; absent means false
(the source reads them with a double negation). -/
structure ModelSupports where
  parallel_tool_calls : Option Bool := none
  tool_calls : Option Bool := none
  streaming : Option Bool := none
  vision : Option Bool := none
  prediction : Option Bool := none
  thinking : Option Bool := none
deriving DecidableEq, Repr

/-- Capabilities block of the model metadata. -/
structure ModelCapabilities where
  type : String
  family : String
  tokenizer : String
  limits : Option ModelLimits
  supports : ModelSupports
deriving DecidableEq, Repr

/-- Chat model metadata as consumed by the LocalLlmEndpoint constructor. -/
structure IChatModelInformation where
  id : String
  name : String
  version : String
  model_picker_enabled : Bool
  is_chat_default : Bool
  is_chat_fallback : Bool
  capabilities : ModelCapabilities
deriving DecidableEq, Repr

/-- The LocalLlmEndpoint object: the fields its constructor assigns. All of
them are readonly in the source and no method assigns to them. -/
structure LocalLlmEndpoint where
  modelMetadata : IChatModelInformation
  _serverUrl : String
  _maxTokens : Nat
  _maxOutputTokens : Nat
  model : String
  name : String
  version : String
  family : String
  tokenizer : String
  showInModelPicker : Bool
  isDefault : Bool
  isFallback : Bool
  supportsToolCalls : Bool
  supportsVision : Bool
  supportsPrediction : Bool
deriving DecidableEq, Repr

/-- The LocalLlmEndpoint constructor. -/
def LocalLlmEndpoint.create (modelMetadata : IChatModelInformation)
    (serverUrl : String) : LocalLlmEndpoint :=
  { modelMetadata := modelMetadata
    _serverUrl := serverUrl
    _maxTokens := (modelMetadata.capabilities.limits.bind
      (fun l => l.max_prompt_tokens)).getD 128000
    _maxOutputTokens := (modelMetadata.capabilities.limits.bind
      (fun l => l.max_output_tokens)).getD 16384
    model := modelMetadata.id
    name := modelMetadata.name
    version := modelMetadata.version
    family := modelMetadata.capabilities.family
    tokenizer := modelMetadata.capabilities.tokenizer
    showInModelPicker := modelMetadata.model_picker_enabled
    isDefault := modelMetadata.is_chat_default
    isFallback := modelMetadata.is_chat_fallback
    supportsToolCalls := modelMetadata.capabilities.supports.tool_calls.getD false
    supportsVision := modelMetadata.capabilities.supports.vision.getD false
    supportsPrediction := modelMetadata.capabilities.supports.prediction.getD false }

def LocalLlmEndpoint.getExtraHeaders (_e : LocalLlmEndpoint) :
    List (String × String) :=
  [("Content-Type", "application/json")]

def LocalLlmEndpoint.modelMaxPromptTokens (e : LocalLlmEndpoint) : Nat :=
  e._maxTokens

def LocalLlmEndpoint.maxOutputTokens (e : LocalLlmEndpoint) : Nat :=
  e._maxOutputTokens

/-- Getter urlOrRequestMetadata: the direct URL to the local server. -/
def LocalLlmEndpoint.urlOrRequestMetadata (e : LocalLlmEndpoint) : String :=
  e._serverUrl ++ "/v1/chat/completions"

/-- One chat message of the request body; the copilot_ fields are the
Copilot-specific properties interceptBody strips. -/
structure CAPIChatMessage where
  role : String
  content : String
  copilot_references : Option String := none
  copilot_confirmations : Option String := none
  copilot_cache_control : Option String := none
deriving DecidableEq, Repr

/-- The request body assembled by createRequestBody; snippy,
copilot_thread_id and copilot_skills are the Copilot-specific top-level
fields interceptBody deletes; tools and messages model opaque pass-through
payloads. -/
structure IEndpointBody where
  model : String
  stream : Bool
  max_tokens : Nat
  temperature : Option Rat := none
  top_p : Option Rat := none
  tools : Option String := none
  messages : Option (List CAPIChatMessage) := none
  snippy : Option String := none
  copilot_thread_id : Option String := none
  copilot_skills : Option String := none
deriving DecidableEq, Repr

/-- Options of createRequestBody. -/
structure ICreateEndpointBodyOptions where
  messages : Option (List CAPIChatMessage) := none
  maxOutputTokens : Option Nat := none
  temperature : Option Rat := none
  topP : Option Rat := none
  tools : Option String := none
deriving DecidableEq, Repr

/-- createRequestBody: base body with model, stream = true and max_tokens,
the optional fields copied over only when present. -/
def LocalLlmEndpoint.createRequestBody (e : LocalLlmEndpoint)
    (options : ICreateEndpointBodyOptions) : IEndpointBody :=
  { model := e.model
    stream := true
    max_tokens := options.maxOutputTokens.getD e._maxOutputTokens
    temperature := options.temperature
    top_p := options.topP
    tools := options.tools
    messages := options.messages }

/-- The per-message cleaning interceptBody applies: drop the
Copilot-specific properties. -/
def cleanMessage (msg : CAPIChatMessage) : CAPIChatMessage :=
  { msg with
    copilot_references := none
    copilot_confirmations := none
    copilot_cache_control := none }

/-- interceptBody on a present body: delete the Copilot-specific top-level
fields, clean every message, and drop tools when the endpoint does not
support tool calls. -/
def LocalLlmEndpoint.interceptBodyValue (e : LocalLlmEndpoint)
    (body : IEndpointBody) : IEndpointBody :=
  let body := { body with
    snippy := none
    copilot_thread_id := none
    copilot_skills := none }
  let body := match body.messages with
    | some msgs => { body with messages := some (msgs.map cleanMessage) }
    | none => body
  if !e.supportsToolCalls then { body with tools := none } else body

/-- interceptBody as in the source signature: a missing body is returned
untouched. -/
def LocalLlmEndpoint.interceptBody (e : LocalLlmEndpoint) :
    Option IEndpointBody → Option IEndpointBody
  | none => none
  | some body => some (e.interceptBodyValue body)

/-- Conversion of one FinishedCompletion into a ChatCompletion, as done in
the SSE branch of processResponseFromChatEndpoint: the message content is
the empty-separator join of the solution text chunks, the choice index is
the index of the completion, and blockFinished records whether finishOffset is
defined. -/
def convertFinishedCompletion (telemetryData : TelemetryData)
    (fc : FinishedCompletion) : ChatCompletion :=
  { blockFinished := fc.finishOffset.isSome
    choiceIndex := fc.index
    model := fc.solution.model
    filterReason := fc.filterReason
    finishReason := fc.reason
    message := { role := "assistant", content := String.join fc.solution.text }
    usage := fc.usage
    tokens := fc.solution.text
    requestId := fc.requestId
    telemetryData := telemetryData
    error := fc.error }

/-- The error a JSON.parse throw is modelled by: JSON.parse throws a
SyntaxError exactly when the response text is not valid JSON, which the
Response model records as body = none. -/
def jsonSyntaxError : String := "SyntaxError: JSON.parse: unexpected input"

/-- The tool call list the effective message carries:
choice.message.toolCalls, falling back to choice.message.tool_calls. -/
def effectiveToolCalls (msg : JsonMessage) : Option (List JsonToolCall) :=
  msg.toolCalls <|> msg.tool_calls

/-- One entry pushed onto functionCall: name, arguments and id of a tool
call, each defaulting to the empty string when absent. -/
def mkCopilotToolCall (tool : JsonToolCall) : ICopilotToolCall :=
  { name := (tool.function.bind (fun f => f.name)).getD ""
    arguments := (tool.function.bind (fun f => f.arguments)).getD ""
    id := tool.id.getD "" }

/-- One iteration of the processNonStreamingResponse loop, at index i on the
i-th choice: the ChatCompletion pushed and the callback invocation made.
genUuid i stands for the generateUuid() call of iteration i. -/
def processChoice (resp : Response) (telemetryData : TelemetryData)
    (genUuid : Nat → String) (jsonResponse : JsonResponse) (i : Nat)
    (choice : JsonChoice) : ChatCompletion × CallbackInvocation :=
  let message : AssistantChatMessage :=
    { role := choice.message.role
      content := choice.message.content
      name := choice.message.name
      toolCalls := effectiveToolCalls choice.message }
  let messageText := getTextPart message.content
  let requestId := (resp.headers.get "X-Request-ID").getD (genUuid i)
  let completion : ChatCompletion :=
    { blockFinished := false
      choiceIndex := i
      model := jsonResponse.model
      filterReason := none
      finishReason := choice.finish_reason
      message := message
      usage := jsonResponse.usage
      tokens := []
      requestId :=
        { headerRequestId := requestId
          gitHubRequestId := ""
          completionId := jsonResponse.id
          created := jsonResponse.created
          deploymentId := ""
          serverExperiments := "" }
      telemetryData := telemetryData
      error := none }
  let functionCall := (message.toolCalls.getD []).map mkCopilotToolCall
  (completion,
    { text := messageText
      index := i
      delta := { text := messageText, copilotToolCalls := functionCall } })

/-- processNonStreamingResponse: parse the body text as JSON (an invalid
body makes the promise reject), then loop over the choices in index order,
invoking the finished callback once per choice and collecting one
ChatCompletion per choice. The result pairs the completions the returned
iterable yields with the callback invocations made, in order. -/
def LocalLlmEndpoint.processNonStreamingResponse (resp : Response)
    (telemetryData : TelemetryData) (genUuid : Nat → String) :
    Except String (List ChatCompletion × List CallbackInvocation) :=
  match resp.body with
  | none => .error jsonSyntaxError
  | some jsonResponse =>
      let results := (jsonResponse.choices.getD []).enum.map
        (fun p => processChoice resp telemetryData genUuid jsonResponse p.1 p.2)
      .ok (results.map Prod.fst, results.map Prod.snd)

/-- processResponseFromChatEndpoint: when the content-type header contains
"text/event-stream" consume the response through the external SSEProcessor
(its finished completions are the sseCompletions oracle of the Response and the
callback invocations it makes are the sseInvocations oracle), converting
each finished completion to a ChatCompletion; otherwise process the
response as a single JSON body. -/
def LocalLlmEndpoint.processResponseFromChatEndpoint (resp : Response)
    (telemetryData : TelemetryData) (genUuid : Nat → String) :
    Except String (List ChatCompletion × List CallbackInvocation) :=
  let contentType := (resp.headers.get "content-type").getD ""
  if strIncludes contentType "text/event-stream" then
    .ok (resp.sseCompletions.map (convertFinishedCompletion telemetryData),
      resp.sseInvocations)
  else
    LocalLlmEndpoint.processNonStreamingResponse resp telemetryData genUuid

/-- Optional request parameters of a chat request. -/
structure OptionalChatRequestParams where
  max_tokens : Option Nat := none
  temperature : Option Rat := none
  top_p : Option Rat := none
  tools : Option String := none
deriving DecidableEq, Repr

/-- Options of makeChatRequest2 (the fields the method reads). -/
structure IMakeChatRequestOptions where
  debugName : String := ""
  messages : List CAPIChatMessage
  requestOptions : Option OptionalChatRequestParams := none
deriving DecidableEq, Repr

/-- One HTTP request issued through the fetcher service: the URL, method and
headers passed to fetch, and the structured body handed to JSON.stringify
(the host serializer) to produce the wire body. -/
structure FetchRequest where
  url : String
  method : String
  headers : List (String × String)
  body : IEndpointBody
deriving DecidableEq, Repr

/-- The ChatResponse success value makeChatRequest2 resolves with. -/
structure ChatResponse where
  type : String
  value : String
  requestId : String
  serverRequestId : String
  usage : Option APIUsage
  resolvedModel : String
deriving DecidableEq, Repr

/-- makeChatRequest2: build the request body, filter it through
interceptBody, issue one POST to the local server URL, throw on a non-OK
status, otherwise normalize the response into completions and fold them
into a success ChatResponse. fetched is the response the fetcher service
resolves with for the issued request; the first component of the result is
the list of HTTP requests issued during the call. -/
def LocalLlmEndpoint.makeChatRequest2 (e : LocalLlmEndpoint)
    (options : IMakeChatRequestOptions) (fetched : Response)
    (genUuid : Nat → String) :
    List FetchRequest × Except String (ChatResponse × List CallbackInvocation) :=
  let body := e.createRequestBody
    { messages := some options.messages
      maxOutputTokens := options.requestOptions.bind (fun r => r.max_tokens)
      temperature := options.requestOptions.bind (fun r => r.temperature)
      topP := options.requestOptions.bind (fun r => r.top_p)
      tools := options.requestOptions.bind (fun r => r.tools) }
  let body := e.interceptBodyValue body
  let url := e.urlOrRequestMetadata
  let request : FetchRequest :=
    { url := url, method := "POST", headers := e.getExtraHeaders, body := body }
  if !fetched.ok then
    ([request],
      .error ("Local LLM request failed: " ++ toString fetched.status ++ " "
        ++ fetched.statusText))
  else
    let telemetryData := TelemetryData.createAndMarkAsIssued
    match LocalLlmEndpoint.processResponseFromChatEndpoint fetched telemetryData
        genUuid with
    | .error err => ([request], .error err)
    | .ok (completions, invocations) =>
        let last := completions.getLast?
        let messageText :=
          (last.map (fun c => getTextPart c.message.content)).getD ""
        let requestId :=
          (last.map (fun c => c.requestId.headerRequestId)).getD ""
        let usage := last.bind (fun c => c.usage)
        ([request],
          .ok ({ type := "success"
                 value := messageText
                 requestId := requestId
                 serverRequestId := requestId
                 usage := usage
                 resolvedModel := e.model }, invocations))

/-- makeChatRequest: repackages its arguments into an options object and
delegates to makeChatRequest2. -/
def LocalLlmEndpoint.makeChatRequest (e : LocalLlmEndpoint)
    (debugName : String) (messages : List CAPIChatMessage)
    (requestOptions : Option OptionalChatRequestParams) (fetched : Response)
    (genUuid : Nat → String) :
    List FetchRequest × Except String (ChatResponse × List CallbackInvocation) :=
  e.makeChatRequest2
    { debugName := debugName
      messages := messages
      requestOptions := requestOptions } fetched genUuid

/-- makeChatRequest2 as a state transformer on the endpoint object: the
source method reads fields of this but assigns none (every field is
readonly), so the post-state of the endpoint is its pre-state. -/
def LocalLlmEndpoint.makeChatRequest2State (e : LocalLlmEndpoint)
    (options : IMakeChatRequestOptions) (fetched : Response)
    (genUuid : Nat → String) :
    LocalLlmEndpoint ×
      (List FetchRequest × Except String (ChatResponse × List CallbackInvocation)) :=
  (e, e.makeChatRequest2 options fetched genUuid)

/-- makeChatRequest as a state transformer on the endpoint object. -/
def LocalLlmEndpoint.makeChatRequestState (e : LocalLlmEndpoint)
    (debugName : String) (messages : List CAPIChatMessage)
    (requestOptions : Option OptionalChatRequestParams) (fetched : Response)
    (genUuid : Nat → String) :
    LocalLlmEndpoint ×
      (List FetchRequest × Except String (ChatResponse × List CallbackInvocation)) :=
  (e, e.makeChatRequest debugName messages requestOptions fetched genUuid)

/-- createLocalModelMetadata: the default local model metadata. -/
def createLocalModelMetadata : IChatModelInformation :=
  { id := "local-llm"
    name := "Local LLM"
    version := "1.0.0"
    model_picker_enabled := true
    is_chat_default := true
    is_chat_fallback := true
    capabilities :=
      { type := "chat"
        family := "local"
        tokenizer := "o200k_base"
        limits := some
          { max_prompt_tokens := some 128000
            max_output_tokens := some 16384
            max_context_window_tokens := some 128000 }
        supports :=
          { parallel_tool_calls := some true
            tool_calls := some true
            streaming := some true
            vision := some true
            prediction := some false
            thinking := some false } } }

/-- LocalEndpointProvider state: the configured server URL and the cached
chat endpoint (undefined until first use). -/
structure LocalEndpointProvider where
  _serverUrl : String
  _chatEndpoint : Option LocalLlmEndpoint
deriving DecidableEq, Repr

/-- The LocalEndpointProvider constructor: an empty configured URL falls
back to the default local server URL. -/
def LocalEndpointProvider.create (serverUrl : String) : LocalEndpointProvider :=
  { _serverUrl := if serverUrl = "" then "http://127.0.0.1:8777" else serverUrl
    _chatEndpoint := none }

/-- getOrCreateLocalEndpoint: create the endpoint from the default metadata
on first use and cache it; later calls return the cached object. -/
def LocalEndpointProvider.getOrCreateLocalEndpoint (p : LocalEndpointProvider) :
    LocalLlmEndpoint × LocalEndpointProvider :=
  match p._chatEndpoint with
  | some e => (e, p)
  | none =>
      let modelMetadata := createLocalModelMetadata
      let e := LocalLlmEndpoint.create modelMetadata p._serverUrl
      (e, { p with _chatEndpoint := some e })

/-- getChatEndpoint resolves every request to the local endpoint. -/
def LocalEndpointProvider.getChatEndpoint (p : LocalEndpointProvider) :
    LocalLlmEndpoint × LocalEndpointProvider :=
  p.getOrCreateLocalEndpoint

/-- getAllChatEndpoints: the one-element list holding the local endpoint. -/
def LocalEndpointProvider.getAllChatEndpoints (p : LocalEndpointProvider) :
    List LocalLlmEndpoint × LocalEndpointProvider :=
  let r := p.getOrCreateLocalEndpoint
  ([r.1], r.2)

/-- One call against the provider, for stating properties of call
sequences. -/
inductive ProviderCall
  | getChat
  | getAll
deriving DecidableEq, Repr

/-- The provider state after one call (results discarded). -/
def LocalEndpointProvider.applyCall (p : LocalEndpointProvider) :
    ProviderCall → LocalEndpointProvider
  | .getChat => p.getChatEndpoint.2
  | .getAll => p.getAllChatEndpoints.2

/-- The provider state after a sequence of calls. -/
def LocalEndpointProvider.runCalls (p : LocalEndpointProvider)
    (calls : List ProviderCall) : LocalEndpointProvider :=
  calls.foldl LocalEndpointProvider.applyCall p

/-- A VS Code authentication session (the fields the fakes fill in). -/
structure AuthenticationSession where
  id : String
  accessToken : String
  accountId : String
  accountLabel : String
  scopes : List String
deriving DecidableEq, Repr

def FakeGitHubAuthenticationProvider.SESSION_ID : String := "fake-github-session"

/-- The constant session of FakeGitHubAuthenticationProvider. -/
def FakeGitHubAuthenticationProvider.session : AuthenticationSession :=
  { id := FakeGitHubAuthenticationProvider.SESSION_ID
    accessToken := "fake-github-access-token-for-local-llm"
    accountId := "local-user"
    accountLabel := "Local LLM User"
    scopes := ["user:email", "read:user", "repo", "workflow"] }

/-- getSessions: ignores the scopes and returns the one constant session.
The method body touches no network or identity service. -/
def FakeGitHubAuthenticationProvider.getSessions
    (_scopes : Option (List String)) : List AuthenticationSession :=
  [FakeGitHubAuthenticationProvider.session]

/-- createSession: ignores the scopes and returns the constant session. -/
def FakeGitHubAuthenticationProvider.createSession
    (_scopes : List String) : AuthenticationSession :=
  FakeGitHubAuthenticationProvider.session

/-- Options of getGitHubSession (opaque: the implementation ignores them). -/
structure GetSessionOptions where
  createIfNone : Option Bool := none
  forceNewSession : Option Bool := none
deriving DecidableEq, Repr

/-- The constant fake session of NullAuthenticationService. -/
def NullAuthenticationService.fakeSession : AuthenticationSession :=
  { id := "local-session"
    accessToken := "local-access-token"
    accountId := "local-user"
    accountLabel := "Local User"
    scopes := ["user:email", "read:user", "repo", "workflow"] }

/-- NullAuthenticationService.getGitHubSession: ignores kind and options and
resolves with the constant fake session. -/
def NullAuthenticationService.getGitHubSession (_kind : String)
    (_options : GetSessionOptions) : AuthenticationSession :=
  NullAuthenticationService.fakeSession

/-- NullChatQuotaService has no fields: the class declares no mutable state. -/
structure NullChatQuotaService where
deriving DecidableEq, Repr

def NullChatQuotaService.quotaExhausted (_s : NullChatQuotaService) : Bool :=
  false

def NullChatQuotaService.overagesEnabled (_s : NullChatQuotaService) : Bool :=
  true

/-- processQuotaHeaders is a no-op on the service state. -/
def NullChatQuotaService.processQuotaHeaders (s : NullChatQuotaService)
    (_headers : Headers) : NullChatQuotaService :=
  s

/-- clearQuota is a no-op on the service state. -/
def NullChatQuotaService.clearQuota (s : NullChatQuotaService) :
    NullChatQuotaService :=
  s

/-- One call against the quota service, for stating properties of call
sequences. -/
inductive QuotaCall
  | processQuotaHeaders (headers : Headers)
  | clearQuota
deriving DecidableEq, Repr

/-- The quota service state after one call. -/
def NullChatQuotaService.applyCall (s : NullChatQuotaService) :
    QuotaCall → NullChatQuotaService
  | .processQuotaHeaders h => s.processQuotaHeaders h
  | .clearQuota => s.clearQuota

/-- The quota service state after a sequence of calls. -/
def NullChatQuotaService.runCalls (s : NullChatQuotaService)
    (calls : List QuotaCall) : NullChatQuotaService :=
  calls.foldl NullChatQuotaService.applyCall s

/-- NullCAPIClientImpl.makeRequest: no remote work is performed; the request
and metadata are ignored (modelled as opaque strings) and the promise is
rejected with a constant error. -/
def NullCAPIClientImpl.makeRequest (_request : String)
    (_requestMetadata : String) : Except String Unit :=
  .error "CAPI not available in local mode"

/-- Discount range passed to the AutoChatEndpoint constructor. -/
structure DiscountRange where
  low : Nat
  high : Nat
deriving DecidableEq, Repr

/-- AutoChatEndpoint as the record of the arguments NullAutomodeService
passes to its host constructor: the wrapped endpoint, the session token,
the discount and the discount range. -/
structure AutoChatEndpoint (α : Type) where
  endpoint : α
  sessionToken : String
  discount : Nat
  discountRange : DiscountRange
deriving DecidableEq, Repr

/-- NullAutomodeService.resolveAutoModeEndpoint: throw when no endpoints are
known, otherwise wrap the first known endpoint with the fake session token
and no discount. The chat request argument is unused by the source. -/
def NullAutomodeService.resolveAutoModeEndpoint {α : Type}
    (_chatRequest : Option String) (knownEndpoints : List α) :
    Except String (AutoChatEndpoint α) :=
  match knownEndpoints with
  | [] => .error "No endpoints provided for auto mode."
  | e :: _ =>
      .ok { endpoint := e
            sessionToken := "local-session-token"
            discount := 0
            discountRange := { low := 0, high := 0 } }

/-! Theorems -/

/-- C1: processResponseFromChatEndpoint takes the SSE branch exactly when
the content-type header contains "text/event-stream": when it does, the
result is one ChatCompletion per finished completion of the SSE stream, and
every such ChatCompletion has message content equal to the empty-separator
join of the solution text chunks of the finished completion, choiceIndex equal
to the index of the finished completion, and blockFinished true exactly when
finishOffset is defined; when it does not, the response is handed to the
non-streaming processor, so both branches normalize into the same
ChatCompletion representation. -/
theorem claim_C1_sse_branch_normalization
    (resp : Response) (telem : TelemetryData) (genUuid : Nat → String) :
    (strIncludes ((resp.headers.get "content-type").getD "")
        "text/event-stream" = true →
      LocalLlmEndpoint.processResponseFromChatEndpoint resp telem genUuid =
        .ok (resp.sseCompletions.map (convertFinishedCompletion telem),
          resp.sseInvocations)) ∧
    (strIncludes ((resp.headers.get "content-type").getD "")
        "text/event-stream" = false →
      LocalLlmEndpoint.processResponseFromChatEndpoint resp telem genUuid =
        LocalLlmEndpoint.processNonStreamingResponse resp telem genUuid) ∧
    (∀ fc : FinishedCompletion,
      (convertFinishedCompletion telem fc).message.content =
        String.join fc.solution.text ∧
      (convertFinishedCompletion telem fc).choiceIndex = fc.index ∧
      ((convertFinishedCompletion telem fc).blockFinished = true ↔
        fc.finishOffset ≠ none)) := by
  refine ⟨fun h => ?_, fun h => ?_, fun fc => ⟨rfl, rfl, ?_⟩⟩
  · simp [LocalLlmEndpoint.processResponseFromChatEndpoint, h]
  · simp [LocalLlmEndpoint.processResponseFromChatEndpoint, h]
  · simp [convertFinishedCompletion, Option.isSome_iff_ne_none]

/-- C5: the fake auth provider answers with constants: getSessions returns
the one-element list holding the session with id "fake-github-session" for
every scopes argument, createSession returns that same session, and
NullAuthenticationService.getGitHubSession returns the constant fake
session with id "local-session" for every kind and options. All four are
pure constant functions of their (ignored) arguments, so no call contacts
any external service. -/
theorem claim_C5_constant_sessions :
    (∀ scopes : Option (List String),
      FakeGitHubAuthenticationProvider.getSessions scopes =
        [FakeGitHubAuthenticationProvider.session]) ∧
    FakeGitHubAuthenticationProvider.session.id = "fake-github-session" ∧
    (∀ scopes : List String,
      FakeGitHubAuthenticationProvider.createSession scopes =
        FakeGitHubAuthenticationProvider.session) ∧
    (∀ (kind : String) (options : GetSessionOptions),
      NullAuthenticationService.getGitHubSession kind options =
        NullAuthenticationService.fakeSession) ∧
    NullAuthenticationService.fakeSession.id = "local-session" :=
  ⟨fun _ => rfl, rfl, fun _ => rfl, fun _ _ => rfl, rfl⟩

theorem NullChatQuotaService.applyCall_id (s : NullChatQuotaService)
    (c : QuotaCall) : s.applyCall c = s := by
  cases c <;> rfl

theorem NullChatQuotaService.runCalls_id (s : NullChatQuotaService)
    (calls : List QuotaCall) : NullChatQuotaService.runCalls s calls = s := by
  induction calls generalizing s with
  | nil => rfl
  | cons c cs ih =>
      have h : NullChatQuotaService.runCalls s (c :: cs) =
          NullChatQuotaService.runCalls (s.applyCall c) cs := rfl
      rw [h, NullChatQuotaService.applyCall_id]

/-- C6: NullChatQuotaService gives constant answers in every state: after
any sequence of processQuotaHeaders and clearQuota calls, quotaExhausted is
false and overagesEnabled is true, the state after the sequence equals the
starting state, and each of processQuotaHeaders and clearQuota leaves the
state unchanged for every input. -/
theorem claim_C6_null_quota_constant (s : NullChatQuotaService)
    (calls : List QuotaCall) :
    (NullChatQuotaService.runCalls s calls).quotaExhausted = false ∧
    (NullChatQuotaService.runCalls s calls).overagesEnabled = true ∧
    NullChatQuotaService.runCalls s calls = s ∧
    (∀ h : Headers, s.processQuotaHeaders h = s) ∧
    s.clearQuota = s :=
  ⟨rfl, rfl, NullChatQuotaService.runCalls_id s calls, fun _ => rfl, rfl⟩

/-- C7: NullCAPIClientImpl.makeRequest is a pure function that, for every
request and request metadata, rejects with the constant error message
"CAPI not available in local mode"; it performs no remote work. -/
theorem claim_C7_capi_rejected (request requestMetadata : String) :
    NullCAPIClientImpl.makeRequest request requestMetadata =
      .error "CAPI not available in local mode" :=
  rfl

/-- C8: makeChatRequest2 and makeChatRequest leave every field of the
endpoint unchanged (the post-state equals the pre-state), and a second call
after a first one produces exactly what it would produce on the original
endpoint, so no state persists from one request to the next; makeChatRequest
is the delegation to makeChatRequest2. -/
theorem claim_C8_no_state_persisted (e : LocalLlmEndpoint)
    (o1 o2 : IMakeChatRequestOptions) (f1 f2 : Response)
    (g1 g2 : Nat → String) (debugName : String)
    (messages : List CAPIChatMessage)
    (requestOptions : Option OptionalChatRequestParams) :
    (e.makeChatRequest2State o1 f1 g1).1 = e ∧
    (e.makeChatRequestState debugName messages requestOptions f1 g1).1 = e ∧
    ((e.makeChatRequest2State o1 f1 g1).1.makeChatRequest2State o2 f2 g2).2 =
      (e.makeChatRequest2State o2 f2 g2).2 ∧
    e.makeChatRequest debugName messages requestOptions f1 g1 =
      e.makeChatRequest2
        { debugName := debugName
          messages := messages
          requestOptions := requestOptions } f1 g1 :=
  ⟨rfl, rfl, rfl, rfl⟩

/-- C10: resolveAutoModeEndpoint throws "No endpoints provided for auto
mode." exactly when the known endpoint list is empty, and for every
non-empty list returns an AutoChatEndpoint wrapping the first element with
session token "local-session-token", discount 0 and discount range
low 0, high 0. -/
theorem claim_C10_automode_first_endpoint {α : Type}
    (chatRequest : Option String) (knownEndpoints : List α) :
    (NullAutomodeService.resolveAutoModeEndpoint chatRequest knownEndpoints =
        .error "No endpoints provided for auto mode." ↔ knownEndpoints = []) ∧
    (∀ (e : α) (rest : List α), knownEndpoints = e :: rest →
      NullAutomodeService.resolveAutoModeEndpoint chatRequest knownEndpoints =
        .ok { endpoint := e
              sessionToken := "local-session-token"
              discount := 0
              discountRange := { low := 0, high := 0 } }) := by
  constructor
  · cases knownEndpoints with
    | nil => simp [NullAutomodeService.resolveAutoModeEndpoint]
    | cons e rest => simp [NullAutomodeService.resolveAutoModeEndpoint]
  · intro e rest h
    subst h
    rfl

/-- A sample endpoint built from the default metadata and default URL. -/
def sampleEndpoint : LocalLlmEndpoint :=
  LocalLlmEndpoint.create createLocalModelMetadata "http://127.0.0.1:8777"

/-- An OK response with no content-type header whose body text is not valid
JSON (its parse result is none). -/
def c2Response : Response :=
  { ok := true
    status := 200
    statusText := "OK"
    headers := ⟨[]⟩
    body := none
    sseCompletions := []
    sseInvocations := [] }

/-- C2 counterexample: an HTTP response with ok = true on which
makeChatRequest2 nevertheless throws, refuting that it never throws for
ok = true responses: in the non-streaming branch the JSON.parse of an invalid
body rejects the call. -/
theorem claim_C2_counterexample :
    c2Response.ok = true ∧
    (sampleEndpoint.makeChatRequest2 { messages := [] } c2Response
        (fun _ => "uuid")).2 = .error jsonSyntaxError :=
  ⟨rfl, rfl⟩

/-- C2 (amended): makeChatRequest2 throws the error "Local LLM request
failed: [status] [statusText]" for every response with ok = false, before
and independent of any response-body processing; for ok = true responses
the only remaining failure is the JSON body parse of the non-streaming
branch: the call throws exactly when the response is not an SSE response
and its body is not valid JSON, and resolves successfully otherwise. -/
theorem claim_C2_amended_status_throw (e : LocalLlmEndpoint)
    (options : IMakeChatRequestOptions) (resp : Response)
    (genUuid : Nat → String) :
    (resp.ok = false →
      (e.makeChatRequest2 options resp genUuid).2 =
        .error ("Local LLM request failed: " ++ toString resp.status ++ " "
          ++ resp.statusText)) ∧
    (resp.ok = true →
      (strIncludes ((resp.headers.get "content-type").getD "")
          "text/event-stream" = false →
        resp.body = none →
        (e.makeChatRequest2 options resp genUuid).2 = .error jsonSyntaxError) ∧
      (strIncludes ((resp.headers.get "content-type").getD "")
          "text/event-stream" = true ∨ resp.body ≠ none →
        ((e.makeChatRequest2 options resp genUuid).2).isOk = true)) := by
  refine ⟨fun hok => ?_, fun hok => ⟨fun hsse hbody => ?_, fun halt => ?_⟩⟩
  · simp [LocalLlmEndpoint.makeChatRequest2, hok]
  · simp [LocalLlmEndpoint.makeChatRequest2, hok,
      LocalLlmEndpoint.processResponseFromChatEndpoint, hsse,
      LocalLlmEndpoint.processNonStreamingResponse, hbody]
  · rcases halt with hsse | hbody
    · simp [LocalLlmEndpoint.makeChatRequest2, hok,
        LocalLlmEndpoint.processResponseFromChatEndpoint, hsse, Except.isOk, Except.toBool]
    · cases hb : resp.body with
      | none => exact absurd hb hbody
      | some j =>
          cases hs : strIncludes ((resp.headers.get "content-type").getD "")
              "text/event-stream" with
          | true =>
              simp [LocalLlmEndpoint.makeChatRequest2, hok,
                LocalLlmEndpoint.processResponseFromChatEndpoint, hs, Except.isOk, Except.toBool]
          | false =>
              simp [LocalLlmEndpoint.makeChatRequest2, hok,
                LocalLlmEndpoint.processResponseFromChatEndpoint, hs,
                LocalLlmEndpoint.processNonStreamingResponse, hb, Except.isOk, Except.toBool]

/-- C3: every call to makeChatRequest2 issues exactly one HTTP request, a
POST whose URL is the configured server URL followed by
"/v1/chat/completions" and whose (pre-serialization) body is the request
body built by createRequestBody from the options of the call and filtered by
interceptBody; and LocalEndpointProvider substitutes
"http://127.0.0.1:8777" for the server URL exactly when the configured URL
is empty. -/
theorem claim_C3_single_post (e : LocalLlmEndpoint)
    (options : IMakeChatRequestOptions) (resp : Response)
    (genUuid : Nat → String) :
    (e.makeChatRequest2 options resp genUuid).1 =
      [{ url := e._serverUrl ++ "/v1/chat/completions"
         method := "POST"
         headers := [("Content-Type", "application/json")]
         body := e.interceptBodyValue (e.createRequestBody
           { messages := some options.messages
             maxOutputTokens := options.requestOptions.bind (fun r => r.max_tokens)
             temperature := options.requestOptions.bind (fun r => r.temperature)
             topP := options.requestOptions.bind (fun r => r.top_p)
             tools := options.requestOptions.bind (fun r => r.tools) }) }] ∧
    (LocalEndpointProvider.create "")._serverUrl = "http://127.0.0.1:8777" ∧
    (∀ url : String, url ≠ "" →
      (LocalEndpointProvider.create url)._serverUrl = url) := by
  refine ⟨?_, rfl, fun url h => by simp [LocalEndpointProvider.create, h]⟩
  cases hok : resp.ok with
  | false => simp [LocalLlmEndpoint.makeChatRequest2, hok,
      LocalLlmEndpoint.urlOrRequestMetadata, LocalLlmEndpoint.getExtraHeaders]
  | true =>
      cases hr : LocalLlmEndpoint.processResponseFromChatEndpoint resp
          TelemetryData.createAndMarkAsIssued genUuid with
      | error err => simp [LocalLlmEndpoint.makeChatRequest2, hok, hr,
          LocalLlmEndpoint.urlOrRequestMetadata, LocalLlmEndpoint.getExtraHeaders]
      | ok pair => simp [LocalLlmEndpoint.makeChatRequest2, hok, hr,
          LocalLlmEndpoint.urlOrRequestMetadata, LocalLlmEndpoint.getExtraHeaders]

/-- C4: for every non-streaming JSON response, processNonStreamingResponse
invokes the finished callback exactly once per choice, in index order
0..n-1, each invocation passing the message text of the choice and a
copilotToolCalls list with one entry per tool call of the choice, whose
name, arguments and id come from the function name, function
arguments and id, each defaulting to the empty string when absent. -/
theorem claim_C4_per_choice_callbacks (resp : Response)
    (telem : TelemetryData) (genUuid : Nat → String) (j : JsonResponse)
    (hbody : resp.body = some j) :
    (LocalLlmEndpoint.processNonStreamingResponse resp telem genUuid).map
        Prod.snd =
      .ok ((j.choices.getD []).enum.map (fun p =>
        { text := getTextPart p.2.message.content
          index := p.1
          delta :=
            { text := getTextPart p.2.message.content
              copilotToolCalls :=
                ((p.2.message.toolCalls <|> p.2.message.tool_calls).getD []).map
                  (fun tool =>
                    { name := (tool.function.bind (fun f => f.name)).getD ""
                      arguments :=
                        (tool.function.bind (fun f => f.arguments)).getD ""
                      id := tool.id.getD "" }) } })) ∧
    (∀ invs : List CallbackInvocation,
      (LocalLlmEndpoint.processNonStreamingResponse resp telem genUuid).map
          Prod.snd = .ok invs →
      invs.length = (j.choices.getD []).length ∧
      ∀ (i : Nat) (hi : i < invs.length), (invs.get ⟨i, hi⟩).index = i) := by
  have key : (LocalLlmEndpoint.processNonStreamingResponse resp telem
      genUuid).map Prod.snd =
      .ok ((j.choices.getD []).enum.map
        (fun p => (processChoice resp telem genUuid j p.1 p.2).2)) := by
    simp [LocalLlmEndpoint.processNonStreamingResponse, hbody, List.map_map,
      Except.map, Function.comp]
  refine ⟨?_, fun invs hinvs => ?_⟩
  · exact key.trans rfl
  · have heq := (Except.ok.injEq _ _).mp (key.symm.trans hinvs)
    subst heq
    constructor
    · simp
    · intro i hi
      simp [List.get_eq_getElem, List.getElem_map, List.getElem_enum,
        processChoice]

/-- The one-choice message of the C4 witness response: toolCalls absent,
tool_calls carrying one call with an absent arguments field. -/
def c4Message : JsonMessage :=
  { role := "assistant"
    content := "hello"
    name := none
    toolCalls := none
    tool_calls := some
      [{ id := some "call1"
         function := some { name := some "fn", arguments := none } }] }

/-- The parsed JSON body of the C4 witness response. -/
def c4Json : JsonResponse :=
  { id := some "id1"
    created := some 5
    model := some "m"
    usage := none
    choices := some [{ message := c4Message, finish_reason := some "stop" }] }

/-- The C4 witness response: an OK non-streaming response with one choice. -/
def c4Response : Response :=
  { ok := true
    status := 200
    statusText := "OK"
    headers := ⟨[("X-Request-ID", "rid-1")]⟩
    body := some c4Json
    sseCompletions := []
    sseInvocations := [] }

/-- C4 witness: on the concrete one-choice response the callback is invoked
once, at index 0, with the message text and the tool call entry whose
absent arguments field defaulted to the empty string. -/
theorem claim_C4_witness :
    (LocalLlmEndpoint.processNonStreamingResponse c4Response { issued := true }
        (fun _ => "uuid")).map Prod.snd =
      .ok [{ text := "hello"
             index := 0
             delta :=
               { text := "hello"
                 copilotToolCalls :=
                   [{ name := "fn", arguments := "", id := "call1" }] } }] := by
  have h := (claim_C4_per_choice_callbacks c4Response { issued := true }
    (fun _ => "uuid") c4Json rfl).1
  exact h.trans rfl

theorem LocalEndpointProvider.getOrCreate_cached (p : LocalEndpointProvider) :
    ((p.getOrCreateLocalEndpoint).2).getOrCreateLocalEndpoint =
      ((p.getOrCreateLocalEndpoint).1, (p.getOrCreateLocalEndpoint).2) := by
  cases h : p._chatEndpoint with
  | some e => simp [LocalEndpointProvider.getOrCreateLocalEndpoint, h]
  | none => simp [LocalEndpointProvider.getOrCreateLocalEndpoint, h]

theorem LocalEndpointProvider.applyCall_cached (p : LocalEndpointProvider)
    (c : ProviderCall) :
    ((p.getOrCreateLocalEndpoint).2).applyCall c =
      (p.getOrCreateLocalEndpoint).2 := by
  cases c <;>
    simp [LocalEndpointProvider.applyCall, LocalEndpointProvider.getChatEndpoint,
      LocalEndpointProvider.getAllChatEndpoints,
      LocalEndpointProvider.getOrCreate_cached]

theorem LocalEndpointProvider.runCalls_cached (p : LocalEndpointProvider)
    (calls : List ProviderCall) :
    LocalEndpointProvider.runCalls (p.getOrCreateLocalEndpoint).2 calls =
      (p.getOrCreateLocalEndpoint).2 := by
  induction calls with
  | nil => rfl
  | cons c cs ih =>
      have h : LocalEndpointProvider.runCalls (p.getOrCreateLocalEndpoint).2
          (c :: cs) =
          LocalEndpointProvider.runCalls
            (((p.getOrCreateLocalEndpoint).2).applyCall c) cs := rfl
      rw [h, LocalEndpointProvider.applyCall_cached]
      exact ih

/-- C9: getOrCreateLocalEndpoint is idempotent. When the provider has no
cached endpoint yet, the first call (through getChatEndpoint or
getAllChatEndpoints) creates the endpoint from the default metadata and the
configured server URL; after that first call, every sequence of further
getChatEndpoint and getAllChatEndpoints calls leaves the provider state
unchanged and returns that same cached endpoint, and getAllChatEndpoints
always returns the one-element list holding it. -/
theorem claim_C9_cached_endpoint (p : LocalEndpointProvider)
    (calls : List ProviderCall) :
    (p._chatEndpoint = none →
      (p.getOrCreateLocalEndpoint).1 =
        LocalLlmEndpoint.create createLocalModelMetadata p._serverUrl) ∧
    LocalEndpointProvider.runCalls (p.getOrCreateLocalEndpoint).2 calls =
      (p.getOrCreateLocalEndpoint).2 ∧
    (LocalEndpointProvider.runCalls (p.getOrCreateLocalEndpoint).2
        calls).getChatEndpoint =
      ((p.getOrCreateLocalEndpoint).1, (p.getOrCreateLocalEndpoint).2) ∧
    (LocalEndpointProvider.runCalls (p.getOrCreateLocalEndpoint).2
        calls).getAllChatEndpoints =
      ([(p.getOrCreateLocalEndpoint).1], (p.getOrCreateLocalEndpoint).2) ∧
    p.getAllChatEndpoints =
      ([(p.getOrCreateLocalEndpoint).1], (p.getOrCreateLocalEndpoint).2) := by
  refine ⟨fun h => ?_, LocalEndpointProvider.runCalls_cached p calls, ?_, ?_, rfl⟩
  · simp [LocalEndpointProvider.getOrCreateLocalEndpoint, h]
  · rw [LocalEndpointProvider.runCalls_cached]
    exact LocalEndpointProvider.getOrCreate_cached p
  · rw [LocalEndpointProvider.runCalls_cached]
    simp [LocalEndpointProvider.getAllChatEndpoints,
      LocalEndpointProvider.getOrCreate_cached]

end LocalMode
